import Mathlib

/-!
Shallow embedding of the core of `src/backend/server.js` from the
military-database repository: role-scoped dashboard metrics, list queries,
transaction creation (purchases / transfers / assignments) and audit logging.

Database tables are lists of rows; SQL aggregates become list folds; the
Express middleware chain (authenticateToken, checkRole) becomes explicit
sequencing inside the handler functions.  JS `null`/absent values are
modelled with `Option`; JS truthiness of a numeric field (`!x` rejects
`undefined`, `null` and `0`) and of a string field (rejects `undefined`,
`null` and `""`) is modelled by `truthyNat` / `truthyStr`.
-/

namespace MilDb

/-- Roles, per the `users.role` CHECK constraint in `schema.sql`:
`role IN ('admin', 'commander', 'logistics')`. -/
inductive Role where
  | admin
  | commander
  | logistics
deriving DecidableEq, Repr

/-- The decoded JWT payload attached to the request as `req.user`
(`id`, `email`, `role`, `base_id`); `base_id` is nullable (NULL for admins
per the schema). -/
structure User where
  id : Nat
  email : String
  role : Role
  base_id : Option Nat
deriving DecidableEq, Repr

/-- Row of the `assets` table (fields used by the server). -/
structure Asset where
  base_id : Nat
  equipment_type_id : Nat
  quantity : Nat
deriving DecidableEq, Repr

/-- Row of the `purchases` table (fields used by the server). -/
structure Purchase where
  id : Nat
  base_id : Nat
  equipment_type_id : Nat
  quantity : Nat
  cost : Option Nat
  purchase_date : String
  supplier : Option String
  notes : Option String
  created_by : Nat
deriving DecidableEq, Repr

/-- `transfers.status` CHECK constraint values. -/
inductive TransferStatus where
  | pending
  | in_transit
  | completed
  | cancelled
deriving DecidableEq, Repr

/-- Row of the `transfers` table (fields used by the server). -/
structure Transfer where
  id : Nat
  from_base_id : Nat
  to_base_id : Nat
  equipment_type_id : Nat
  quantity : Nat
  transfer_date : String
  status : TransferStatus
  notes : Option String
  created_by : Nat
deriving DecidableEq, Repr

/-- `assignments.status` CHECK constraint values. -/
inductive AssignmentStatus where
  | active
  | returned
  | lost
  | damaged
deriving DecidableEq, Repr

/-- Row of the `assignments` table (fields used by the server). -/
structure Assignment where
  id : Nat
  base_id : Nat
  equipment_type_id : Nat
  personnel_id : Nat
  serial_number : Option String
  assignment_date : String
  status : AssignmentStatus
  notes : Option String
  created_by : Nat
deriving DecidableEq, Repr

/-- Row of the `expenditures` table (fields used by the dashboard). -/
structure Expenditure where
  base_id : Nat
  equipment_type_id : Nat
  quantity : Nat
deriving DecidableEq, Repr

/-- Row of the `audit_logs` table (fields written by `logAudit`). -/
structure AuditEntry where
  user_id : Nat
  action : String
  entity_type : String
  entity_id : Nat
deriving DecidableEq, Repr

/-- Row of the `bases` table (columns selected by `GET /api/bases`). -/
structure BaseRow where
  id : Nat
  name : String
  location : Option String
  commander_name : Option String
deriving DecidableEq, Repr

/-- Row of the `equipment_types` table (columns selected by
`GET /api/equipment-types`). -/
structure EquipmentTypeRow where
  id : Nat
  name : String
  category : String
  description : Option String
  unit_of_measure : String
deriving DecidableEq, Repr

/-- The relational store.  `opLog` models the winston operational error log
(`logger.error`), which receives the message when an audit insert fails. -/
structure Db where
  bases : List BaseRow
  equipment_types : List EquipmentTypeRow
  assets : List Asset
  purchases : List Purchase
  transfers : List Transfer
  assignments : List Assignment
  expenditures : List Expenditure
  audit_logs : List AuditEntry
  opLog : List String
deriving DecidableEq, Repr

/-- Sum of `quantity` over rows selected by a predicate:
`SELECT COALESCE(SUM(quantity), 0) ... WHERE p` (empty selection is 0). -/
def sumQty {α : Type} (rows : List α) (p : α → Bool) (qty : α → Nat) : Nat :=
  ((rows.filter p).map qty).sum

/-- Count of rows selected by a predicate: `SELECT COALESCE(COUNT(*), 0)`. -/
def countRows {α : Type} (rows : List α) (p : α → Bool) : Nat :=
  (rows.filter p).length

/-- A bound base parameter, as pushed into `params`: `none` means the query
has no `WHERE base_id = $1` clause at all; `some v` means the clause is
present with bound value `v` (itself nullable, since `req.user.base_id` can
be NULL; SQL `base_id = NULL` matches no row). -/
def matchesBase (flt : Option (Option Nat)) (b : Nat) : Bool :=
  match flt with
  | none => true
  | some v => some b = v

/-- Query string of `GET /api/dashboard/metrics`:
`const { base_id, date_from, date_to } = req.query`. -/
structure MetricsQuery where
  base_id : Option Nat
  date_from : Option String
  date_to : Option String
deriving DecidableEq, Repr

/-- The `baseFilter`/`params` computation of `GET /api/dashboard/metrics`
(server.js lines 207-222): commanders are forced to their own base; admins
get the caller-supplied filter when present; everyone else gets no filter. -/
def mainBaseFilter (u : User) (qbase : Option Nat) : Option (Option Nat) :=
  if u.role = Role.commander then
    some u.base_id
  else if qbase.isSome ∧ u.role = Role.admin then
    (qbase.map fun b => some b)
  else
    none

/-- The `transfersInFilter`/`transfersOutFilter` parameter computation
(server.js lines 239-256): commanders are forced to their own base, but for
every other role the caller-supplied `base_id` is used whenever present —
note the missing admin-role test, unlike `mainBaseFilter`. -/
def transferBaseFilter (u : User) (qbase : Option Nat) : Option (Option Nat) :=
  if u.role = Role.commander then
    some u.base_id
  else
    (qbase.map fun b => some b)

/-- The JSON `data` object returned by `GET /api/dashboard/metrics`.
`netMovement`/`closingBalance` are JS number arithmetic, which can go
negative, hence `Int`. -/
structure Metrics where
  openingBalance : Nat
  closingBalance : Int
  netMovement : Int
  purchases : Nat
  transferIn : Nat
  transferOut : Nat
  assigned : Nat
  expended : Nat
deriving DecidableEq, Repr

/-- Handler body of `GET /api/dashboard/metrics` (server.js lines 203-299),
for an already-authenticated user. -/
def dashboardMetrics (u : User) (q : MetricsQuery) (db : Db) : Metrics :=
  let bf := mainBaseFilter u q.base_id
  let tf := transferBaseFilter u q.base_id
  let openingBalance := sumQty db.assets (fun a => matchesBase bf a.base_id) Asset.quantity
  let purchases := sumQty db.purchases (fun p => matchesBase bf p.base_id) Purchase.quantity
  let transferIn := sumQty db.transfers (fun t => matchesBase tf t.to_base_id) Transfer.quantity
  let transferOut := sumQty db.transfers (fun t => matchesBase tf t.from_base_id) Transfer.quantity
  let assigned := countRows db.assignments
    (fun a => matchesBase bf a.base_id && a.status = AssignmentStatus.active)
  let expended := sumQty db.expenditures (fun e => matchesBase bf e.base_id) Expenditure.quantity
  let netMovement : Int := (purchases : Int) + (transferIn : Int) - (transferOut : Int)
  let closingBalance : Int := (openingBalance : Int) + netMovement
  { openingBalance := openingBalance
    closingBalance := closingBalance
    netMovement := netMovement
    purchases := purchases
    transferIn := transferIn
    transferOut := transferOut
    assigned := assigned
    expended := expended }

/-- JS truthiness of a numeric payload field: `!x` is true for `undefined`,
`null` and `0`, so the required-field test rejects all three. -/
def truthyNat : Option Nat → Bool
  | none => false
  | some n => n ≠ 0

/-- JS truthiness of a string payload field: `!x` is true for `undefined`,
`null` and `""`. -/
def truthyStr : Option String → Bool
  | none => false
  | some s => s ≠ ""

/-- `checkRole(...allowedRoles)` middleware (server.js lines 91-102): passes
iff `req.user.role` is among the allowed roles. -/
def checkRole (allowedRoles : List Role) (u : User) : Bool :=
  allowedRoles.contains u.role

/-- `logAudit` (server.js lines 105-116): inserts one `audit_logs` row; an
insert failure (modelled by the `auditOk` oracle being `false`) is caught
and written to the operational error log, never rethrown. -/
def logAudit (auditOk : Bool) (userId : Nat) (action entityType : String)
    (entityId : Nat) (db : Db) : Db :=
  if auditOk then
    { db with audit_logs := db.audit_logs ++ [⟨userId, action, entityType, entityId⟩] }
  else
    { db with opLog := db.opLog ++ ["Failed to create audit log"] }

/-- Rejection outcomes of the create handlers. `forbiddenRole` is the 403
from `checkRole`; `missingFields` the 400 required-fields response;
`sameBase` the 400 "Cannot transfer to the same base"; `forbiddenBase` the
403 own-base restriction on commanders. -/
inductive CreateError where
  | forbiddenRole
  | missingFields
  | sameBase
  | forbiddenBase
deriving DecidableEq, Repr

/-- Result of a create handler: HTTP 201 with the inserted row, or a
4xx rejection. -/
inductive CreateResult (α : Type) where
  | created (record : α)
  | rejected (e : CreateError)
deriving DecidableEq, Repr

/-- `req.body` of `POST /api/purchases`. -/
structure PurchasePayload where
  base_id : Option Nat
  equipment_type_id : Option Nat
  quantity : Option Nat
  cost : Option Nat
  purchase_date : Option String
  supplier : Option String
  notes : Option String
deriving DecidableEq, Repr

/-- Required-field presence test of `POST /api/purchases` (line 357):
`!base_id || !equipment_type_id || !quantity || !purchase_date`. -/
def purchaseRequired (p : PurchasePayload) : Bool :=
  truthyNat p.base_id && truthyNat p.equipment_type_id &&
    truthyNat p.quantity && truthyStr p.purchase_date

/-- Handler of `POST /api/purchases` (server.js lines 352-406), with the
`checkRole('admin', 'commander')` route middleware made explicit as the
first step after authentication. -/
def createPurchase (u : User) (p : PurchasePayload) (auditOk : Bool) (db : Db) :
    CreateResult Purchase × Db :=
  if ¬ checkRole [Role.admin, Role.commander] u then
    (CreateResult.rejected CreateError.forbiddenRole, db)
  else if ¬ purchaseRequired p then
    (CreateResult.rejected CreateError.missingFields, db)
  else if u.role = Role.commander ∧ p.base_id ≠ u.base_id then
    (CreateResult.rejected CreateError.forbiddenBase, db)
  else
    let rec_ : Purchase :=
      { id := db.purchases.length + 1
        base_id := p.base_id.getD 0
        equipment_type_id := p.equipment_type_id.getD 0
        quantity := p.quantity.getD 0
        cost := p.cost
        purchase_date := p.purchase_date.getD ""
        supplier := p.supplier
        notes := p.notes
        created_by := u.id }
    let db1 := { db with purchases := db.purchases ++ [rec_] }
    let db2 := logAudit auditOk u.id "CREATE" "PURCHASE" rec_.id db1
    (CreateResult.created rec_, db2)

/-- `req.body` of `POST /api/transfers`. -/
structure TransferPayload where
  from_base_id : Option Nat
  to_base_id : Option Nat
  equipment_type_id : Option Nat
  quantity : Option Nat
  transfer_date : Option String
  notes : Option String
deriving DecidableEq, Repr

/-- Required-field presence test of `POST /api/transfers` (line 466). -/
def transferRequired (p : TransferPayload) : Bool :=
  truthyNat p.from_base_id && truthyNat p.to_base_id &&
    truthyNat p.equipment_type_id && truthyNat p.quantity &&
    truthyStr p.transfer_date

/-- Handler of `POST /api/transfers` (server.js lines 461-525), with the
`checkRole('admin', 'commander', 'logistics')` middleware explicit.  The
same-base test (line 474) precedes the commander base-involvement test
(line 482). -/
def createTransfer (u : User) (p : TransferPayload) (auditOk : Bool) (db : Db) :
    CreateResult Transfer × Db :=
  if ¬ checkRole [Role.admin, Role.commander, Role.logistics] u then
    (CreateResult.rejected CreateError.forbiddenRole, db)
  else if ¬ transferRequired p then
    (CreateResult.rejected CreateError.missingFields, db)
  else if p.from_base_id = p.to_base_id then
    (CreateResult.rejected CreateError.sameBase, db)
  else if u.role = Role.commander ∧
      p.from_base_id ≠ u.base_id ∧ p.to_base_id ≠ u.base_id then
    (CreateResult.rejected CreateError.forbiddenBase, db)
  else
    let rec_ : Transfer :=
      { id := db.transfers.length + 1
        from_base_id := p.from_base_id.getD 0
        to_base_id := p.to_base_id.getD 0
        equipment_type_id := p.equipment_type_id.getD 0
        quantity := p.quantity.getD 0
        transfer_date := p.transfer_date.getD ""
        status := TransferStatus.pending
        notes := p.notes
        created_by := u.id }
    let db1 := { db with transfers := db.transfers ++ [rec_] }
    let db2 := logAudit auditOk u.id "CREATE" "TRANSFER" rec_.id db1
    (CreateResult.created rec_, db2)

/-- `req.body` of `POST /api/assignments`. -/
structure AssignmentPayload where
  base_id : Option Nat
  equipment_type_id : Option Nat
  personnel_id : Option Nat
  serial_number : Option String
  assignment_date : Option String
  notes : Option String
deriving DecidableEq, Repr

/-- Required-field presence test of `POST /api/assignments` (line 589). -/
def assignmentRequired (p : AssignmentPayload) : Bool :=
  truthyNat p.base_id && truthyNat p.equipment_type_id &&
    truthyNat p.personnel_id && truthyStr p.assignment_date

/-- Handler of `POST /api/assignments` (server.js lines 584-638), with the
`checkRole('admin', 'commander')` middleware explicit. -/
def createAssignment (u : User) (p : AssignmentPayload) (auditOk : Bool) (db : Db) :
    CreateResult Assignment × Db :=
  if ¬ checkRole [Role.admin, Role.commander] u then
    (CreateResult.rejected CreateError.forbiddenRole, db)
  else if ¬ assignmentRequired p then
    (CreateResult.rejected CreateError.missingFields, db)
  else if u.role = Role.commander ∧ p.base_id ≠ u.base_id then
    (CreateResult.rejected CreateError.forbiddenBase, db)
  else
    let rec_ : Assignment :=
      { id := db.assignments.length + 1
        base_id := p.base_id.getD 0
        equipment_type_id := p.equipment_type_id.getD 0
        personnel_id := p.personnel_id.getD 0
        serial_number := p.serial_number
        assignment_date := p.assignment_date.getD ""
        status := AssignmentStatus.active
        notes := p.notes
        created_by := u.id }
    let db1 := { db with assignments := db.assignments ++ [rec_] }
    let db2 := logAudit auditOk u.id "CREATE" "ASSIGNMENT" rec_.id db1
    (CreateResult.created rec_, db2)

/-- Row selection of `GET /api/purchases` (server.js lines 302-350):
commanders see only rows of their own base (`WHERE p.base_id = $1` with
`req.user.base_id` bound), every other role sees all rows.  The display
joins and the `ORDER BY` presentation are not modelled. -/
def listPurchases (u : User) (db : Db) : List Purchase :=
  if u.role = Role.commander then
    db.purchases.filter (fun p => some p.base_id = u.base_id)
  else
    db.purchases

/-- Row selection of `GET /api/transfers` (server.js lines 408-458):
commanders see only transfers involving their base. -/
def listTransfers (u : User) (db : Db) : List Transfer :=
  if u.role = Role.commander then
    db.transfers.filter
      (fun t => some t.from_base_id = u.base_id || some t.to_base_id = u.base_id)
  else
    db.transfers

/-- Row selection of `GET /api/assignments` (server.js lines 528-581):
commanders see only assignments of their own base. -/
def listAssignments (u : User) (db : Db) : List Assignment :=
  if u.role = Role.commander then
    db.assignments.filter (fun a => some a.base_id = u.base_id)
  else
    db.assignments

/-- The bearer-token situation of an incoming request: no `Authorization`
header token at all, a token that fails `jwt.verify`, or a token verifying
to the given user payload. -/
inductive AuthInput where
  | noToken
  | badToken
  | goodToken (u : User)
deriving DecidableEq, Repr

/-- Authentication failure: `tokenMissing` is the HTTP 401 "Access token
required" response, `tokenInvalid` the HTTP 403 "Invalid or expired token"
response (server.js lines 67-88).  Together they are the spec's
`Unauthorized` taxonomy class ("missing or invalid identity token"). -/
inductive AuthError where
  | tokenMissing
  | tokenInvalid
deriving DecidableEq, Repr

/-- `authenticateToken` middleware (server.js lines 67-88). -/
def authenticateToken : AuthInput → Except AuthError User
  | AuthInput.noToken => Except.error AuthError.tokenMissing
  | AuthInput.badToken => Except.error AuthError.tokenInvalid
  | AuthInput.goodToken u => Except.ok u

/-- The API routes of server.js (the login route, whose body is credential
checking against the `users` table, is outside the authenticated surface
modelled here). -/
inductive Endpoint where
  | dashboard (q : MetricsQuery)
  | purchasesList
  | purchasesCreate (p : PurchasePayload)
  | transfersList
  | transfersCreate (p : TransferPayload)
  | assignmentsList
  | assignmentsCreate (p : AssignmentPayload)
  | basesList
  | equipmentTypesList
  | auditLogsList (limit offset : Nat)
  | health
deriving DecidableEq, Repr

/-- A response body, by route family.  `authFailed` is the response written
by `authenticateToken` before the route handler runs; `roleDenied` the 403
written by a route-level `checkRole` middleware. -/
inductive Response where
  | authFailed (e : AuthError)
  | roleDenied
  | metricsData (m : Metrics)
  | purchaseRows (l : List Purchase)
  | transferRows (l : List Transfer)
  | assignmentRows (l : List Assignment)
  | baseRows (l : List BaseRow)
  | equipmentTypeRows (l : List EquipmentTypeRow)
  | auditRows (l : List AuditEntry)
  | purchaseResult (r : CreateResult Purchase)
  | transferResult (r : CreateResult Transfer)
  | assignmentResult (r : CreateResult Assignment)
  | healthOk
deriving DecidableEq, Repr

/-- Row selection of `GET /api/audit-logs` (server.js lines 683-719):
admin-only (`checkRole('admin')`), newest first (`ORDER BY timestamp DESC`,
i.e. reverse insertion order), paged by `LIMIT $1 OFFSET $2`. -/
def listAuditLogs (u : User) (limit offset : Nat) (db : Db) :
    Response :=
  if ¬ checkRole [Role.admin] u then
    Response.roleDenied
  else
    Response.auditRows ((db.audit_logs.reverse.drop offset).take limit)

/-- The full request pipeline: every route except `GET /api/health` runs
`authenticateToken` first and writes its failure response without touching
any handler or the store; `/api/health` is unauthenticated. -/
def handleRequest (auth : AuthInput) (e : Endpoint) (auditOk : Bool) (db : Db) :
    Response × Db :=
  match e with
  | Endpoint.health => (Response.healthOk, db)
  | Endpoint.dashboard q =>
    match authenticateToken auth with
    | Except.error er => (Response.authFailed er, db)
    | Except.ok u => (Response.metricsData (dashboardMetrics u q db), db)
  | Endpoint.purchasesList =>
    match authenticateToken auth with
    | Except.error er => (Response.authFailed er, db)
    | Except.ok u => (Response.purchaseRows (listPurchases u db), db)
  | Endpoint.purchasesCreate p =>
    match authenticateToken auth with
    | Except.error er => (Response.authFailed er, db)
    | Except.ok u =>
      let r := createPurchase u p auditOk db
      (Response.purchaseResult r.1, r.2)
  | Endpoint.transfersList =>
    match authenticateToken auth with
    | Except.error er => (Response.authFailed er, db)
    | Except.ok u => (Response.transferRows (listTransfers u db), db)
  | Endpoint.transfersCreate p =>
    match authenticateToken auth with
    | Except.error er => (Response.authFailed er, db)
    | Except.ok u =>
      let r := createTransfer u p auditOk db
      (Response.transferResult r.1, r.2)
  | Endpoint.assignmentsList =>
    match authenticateToken auth with
    | Except.error er => (Response.authFailed er, db)
    | Except.ok u => (Response.assignmentRows (listAssignments u db), db)
  | Endpoint.assignmentsCreate p =>
    match authenticateToken auth with
    | Except.error er => (Response.authFailed er, db)
    | Except.ok u =>
      let r := createAssignment u p auditOk db
      (Response.assignmentResult r.1, r.2)
  | Endpoint.basesList =>
    match authenticateToken auth with
    | Except.error er => (Response.authFailed er, db)
    | Except.ok _ => (Response.baseRows db.bases, db)
  | Endpoint.equipmentTypesList =>
    match authenticateToken auth with
    | Except.error er => (Response.authFailed er, db)
    | Except.ok _ => (Response.equipmentTypeRows db.equipment_types, db)
  | Endpoint.auditLogsList limit offset =>
    match authenticateToken auth with
    | Except.error er => (Response.authFailed er, db)
    | Except.ok u => (listAuditLogs u limit offset db, db)

/-! ## Concrete fixtures used by scenario conjuncts, counterexamples and
witnesses. -/

/-- An admin user (`base_id` NULL, as seeded for admins). -/
def adminUser : User :=
  { id := 1, email := "admin@military.gov", role := Role.admin, base_id := none }

/-- The commander of base 1 ("Base Alpha"). -/
def alphaCommander : User :=
  { id := 2, email := "commander.alpha@military.gov", role := Role.commander,
    base_id := some 1 }

/-- A logistics user. -/
def logiUser : User :=
  { id := 3, email := "logistics@military.gov", role := Role.logistics,
    base_id := none }

/-- A store with no rows at all. -/
def emptyDb : Db :=
  { bases := [], equipment_types := [], assets := [], purchases := [],
    transfers := [], assignments := [], expenditures := [], audit_logs := [],
    opLog := [] }

/-- The spec's dashboard scenario: base Alpha (id 1) holds asset rows of
quantity 250, 100, 300 and 15 (sum 665); Alpha purchases sum to 50;
transfers into Alpha sum to 100 and out of Alpha to 30.  Rows of other
bases are present to show they are excluded from Alpha's scope. -/
def scenarioDb : Db :=
  { bases := [⟨1, "Base Alpha", none, none⟩, ⟨2, "Base Beta", none, none⟩,
              ⟨3, "Base Charlie", none, none⟩]
    equipment_types := []
    assets := [⟨1, 1, 250⟩, ⟨1, 2, 100⟩, ⟨1, 3, 300⟩, ⟨1, 5, 15⟩, ⟨2, 1, 200⟩]
    purchases := [⟨1, 1, 1, 50, none, "2025-06-01", none, none, 1⟩,
                  ⟨2, 2, 1, 77, none, "2025-06-02", none, none, 1⟩]
    transfers := [⟨1, 2, 1, 1, 100, "2025-06-03", TransferStatus.pending, none, 1⟩,
                  ⟨2, 1, 3, 1, 30, "2025-06-04", TransferStatus.pending, none, 1⟩]
    assignments := []
    expenditures := []
    audit_logs := []
    opLog := [] }

/-- A store holding a single transfer of quantity 10 from base 1 to base 2. -/
def oneTransferDb : Db :=
  { emptyDb with
    transfers := [⟨1, 1, 2, 1, 10, "2025-06-03", TransferStatus.pending, none, 1⟩] }

/-- A well-formed purchase payload targeting base 2. -/
def ppBase2 : PurchasePayload :=
  { base_id := some 2, equipment_type_id := some 1, quantity := some 5,
    cost := some 1000, purchase_date := some "2025-07-01",
    supplier := some "ACME", notes := none }

/-- A purchase payload with every field absent. -/
def ppEmpty : PurchasePayload :=
  { base_id := none, equipment_type_id := none, quantity := none,
    cost := none, purchase_date := none, supplier := none, notes := none }

/-- A well-formed assignment payload targeting base 2. -/
def apBase2 : AssignmentPayload :=
  { base_id := some 2, equipment_type_id := some 1, personnel_id := some 4,
    serial_number := none, assignment_date := some "2025-07-01", notes := none }

/-- A well-formed transfer payload with `from_base_id = to_base_id = 2`. -/
def tpSame2 : TransferPayload :=
  { from_base_id := some 2, to_base_id := some 2, equipment_type_id := some 1,
    quantity := some 5, transfer_date := some "2025-07-01", notes := none }

/-- A transfer payload with `from = to = 1` but `quantity` missing. -/
def tpSame1NoQty : TransferPayload :=
  { from_base_id := some 1, to_base_id := some 1, equipment_type_id := some 1,
    quantity := none, transfer_date := some "2025-07-01", notes := none }

/-- A well-formed transfer payload from base 2 to base 3. -/
def tpFrom2To3 : TransferPayload :=
  { from_base_id := some 2, to_base_id := some 3, equipment_type_id := some 1,
    quantity := some 5, transfer_date := some "2025-07-01", notes := none }

/-- A well-formed transfer payload from base 1 to base 2. -/
def tpFrom1To2 : TransferPayload :=
  { from_base_id := some 1, to_base_id := some 2, equipment_type_id := some 1,
    quantity := some 5, transfer_date := some "2025-07-01", notes := none }

/-! ## Claims -/

/-- **C1.** For all inputs the dashboard metrics computation returns
`netMovement = purchases + transferIn - transferOut` and
`closingBalance = openingBalance + netMovement`; in particular, with
openingBalance 665, purchases 50, transferIn 100 and transferOut 30 (the
Alpha scenario) it returns netMovement 120 and closingBalance 785. -/
theorem dashboard_balance_formula :
    (∀ (u : User) (q : MetricsQuery) (db : Db),
      (dashboardMetrics u q db).netMovement =
        ((dashboardMetrics u q db).purchases : Int) +
          ((dashboardMetrics u q db).transferIn : Int) -
          ((dashboardMetrics u q db).transferOut : Int) ∧
      (dashboardMetrics u q db).closingBalance =
        ((dashboardMetrics u q db).openingBalance : Int) +
          (dashboardMetrics u q db).netMovement) ∧
    (dashboardMetrics alphaCommander ⟨none, none, none⟩ scenarioDb).openingBalance = 665 ∧
    (dashboardMetrics alphaCommander ⟨none, none, none⟩ scenarioDb).purchases = 50 ∧
    (dashboardMetrics alphaCommander ⟨none, none, none⟩ scenarioDb).transferIn = 100 ∧
    (dashboardMetrics alphaCommander ⟨none, none, none⟩ scenarioDb).transferOut = 30 ∧
    (dashboardMetrics alphaCommander ⟨none, none, none⟩ scenarioDb).netMovement = 120 ∧
    (dashboardMetrics alphaCommander ⟨none, none, none⟩ scenarioDb).closingBalance = 785 := by
  refine ⟨fun u q db => ⟨rfl, rfl⟩, ?_, ?_, ?_, ?_, ?_, ?_⟩ <;> decide

/-- **C10.** The dashboard metrics computation ignores `date_from` and
`date_to` entirely: two requests differing only in those parameters return
identical metrics, for every user and store state. -/
theorem dashboard_ignores_dates (u : User) (b : Option Nat)
    (d1 d2 d1' d2' : Option String) (db : Db) :
    dashboardMetrics u ⟨b, d1, d2⟩ db = dashboardMetrics u ⟨b, d1', d2'⟩ db := rfl

/-- **C2.** For every commander, the scope applied to the dashboard and to
the list queries is the commander's own base: the caller-supplied base
filter is ignored (the metrics equal those of an unfiltered call), and the
purchase/transfer/assignment listings contain exactly the rows involving
the commander's base. -/
theorem commander_scope_forced (u : User) (h : u.role = Role.commander)
    (q : MetricsQuery) (db : Db) :
    mainBaseFilter u q.base_id = some u.base_id ∧
    transferBaseFilter u q.base_id = some u.base_id ∧
    dashboardMetrics u q db =
      dashboardMetrics u ⟨none, q.date_from, q.date_to⟩ db ∧
    listPurchases u db = db.purchases.filter (fun p => some p.base_id = u.base_id) ∧
    listTransfers u db = db.transfers.filter
      (fun t => some t.from_base_id = u.base_id || some t.to_base_id = u.base_id) ∧
    listAssignments u db = db.assignments.filter (fun a => some a.base_id = u.base_id) := by
  refine ⟨?_, ?_, ?_, ?_, ?_, ?_⟩ <;>
    simp [mainBaseFilter, transferBaseFilter, dashboardMetrics,
      listPurchases, listTransfers, listAssignments, h]

/-- Witness for **C2**: the Alpha commander requesting metrics filtered to
base 2 gets exactly the unfiltered (own-base) result, and their purchase
listing over the scenario store is the Alpha-only rows. -/
theorem commander_scope_forced_witness :
    alphaCommander.role = Role.commander ∧
    dashboardMetrics alphaCommander ⟨some 2, none, none⟩ scenarioDb =
      dashboardMetrics alphaCommander ⟨none, none, none⟩ scenarioDb ∧
    listPurchases alphaCommander scenarioDb =
      scenarioDb.purchases.filter (fun p => some p.base_id = alphaCommander.base_id) :=
  ⟨rfl,
   (commander_scope_forced alphaCommander rfl ⟨some 2, none, none⟩ scenarioDb).2.2.1,
   (commander_scope_forced alphaCommander rfl ⟨some 2, none, none⟩ scenarioDb).2.2.2.1⟩

/-- Every role passes the transfer route's `checkRole` middleware, since the
allowed list is the whole role universe. -/
theorem transferRoleAllowed (u : User) :
    checkRole [Role.admin, Role.commander, Role.logistics] u = true := by
  cases h : u.role <;> simp [checkRole, h]

/-- `logAudit` writes only to `audit_logs`/`opLog`; the `transfers` table is
untouched. -/
theorem logAudit_transfers (auditOk : Bool) (userId : Nat)
    (action entityType : String) (entityId : Nat) (db : Db) :
    (logAudit auditOk userId action entityType entityId db).transfers =
      db.transfers := by
  cases auditOk <;> rfl

/-- Counterexample to **C3** as stated: a payload with
`from_base_id = to_base_id` but a missing `quantity` is rejected by the
required-fields check (`missingFields`), not by the structural
same-base rule, because the presence check runs first. -/
theorem transfer_same_base_counterexample :
    tpSame1NoQty.from_base_id = tpSame1NoQty.to_base_id ∧
    (createTransfer adminUser tpSame1NoQty true emptyDb).1 =
      CreateResult.rejected CreateError.missingFields ∧
    (createTransfer adminUser tpSame1NoQty true emptyDb).1 ≠
      CreateResult.rejected CreateError.sameBase := by
  decide

/-- **C3 (amended).** For every role and every payload with
`from_base_id = to_base_id`, create-Transfer rejects and leaves the store
untouched; when the required fields are all present the rejection is the
structural same-base error.  Consequently the invariant
`from_base ≠ to_base` over all stored transfers is preserved by every
create-Transfer call. -/
theorem transfer_same_base_rejected (u : User) (p : TransferPayload)
    (auditOk : Bool) (db : Db) :
    (p.from_base_id = p.to_base_id →
      (createTransfer u p auditOk db).2 = db ∧
      (∀ r, (createTransfer u p auditOk db).1 ≠ CreateResult.created r) ∧
      (transferRequired p = true →
        (createTransfer u p auditOk db).1 = CreateResult.rejected CreateError.sameBase)) ∧
    ((∀ t ∈ db.transfers, t.from_base_id ≠ t.to_base_id) →
      ∀ t ∈ (createTransfer u p auditOk db).2.transfers,
        t.from_base_id ≠ t.to_base_id) := by
  constructor
  · intro h
    by_cases hreq : transferRequired p
    · simp [createTransfer, transferRoleAllowed, hreq, h]
    · simp [createTransfer, transferRoleAllowed, hreq]
  · intro hinv t ht
    by_cases hreq : transferRequired p
    · by_cases hsame : p.from_base_id = p.to_base_id
      · simp [createTransfer, transferRoleAllowed, hreq, hsame] at ht
        exact hinv t ht
      · by_cases hcmd : u.role = Role.commander ∧
            p.from_base_id ≠ u.base_id ∧ p.to_base_id ≠ u.base_id
        · simp [createTransfer, transferRoleAllowed, hreq, hsame, hcmd] at ht
          exact hinv t ht
        · simp only [createTransfer, transferRoleAllowed, hreq, hsame, hcmd,
            not_true_eq_false, not_false_eq_true, if_false, if_true,
            Bool.true_eq_false, ite_false, ite_true] at ht
          rw [logAudit_transfers] at ht
          simp only [List.mem_append, List.mem_singleton] at ht
          rcases ht with ht | ht
          · exact hinv t ht
          · subst ht
            simp only [transferRequired, Bool.and_eq_true] at hreq
            obtain ⟨⟨⟨⟨hf, hto⟩, _⟩, _⟩, _⟩ := hreq
            cases hfb : p.from_base_id with
            | none => rw [hfb] at hf; simp [truthyNat] at hf
            | some a =>
              cases htb : p.to_base_id with
              | none => rw [htb] at hto; simp [truthyNat] at hto
              | some b =>
                rw [hfb, htb] at hsame
                simp only [Option.some.injEq] at hsame
                simpa [hfb, htb] using hsame
    · simp [createTransfer, transferRoleAllowed, hreq] at ht
      exact hinv t ht

/-- Witness for **C3 (amended)**: the commander's same-base payload
`tpSame2` is rejected with the structural same-base error and the store is
unchanged. -/
theorem transfer_same_base_rejected_witness :
    (createTransfer alphaCommander tpSame2 true emptyDb).2 = emptyDb ∧
    (createTransfer alphaCommander tpSame2 true emptyDb).1 =
      CreateResult.rejected CreateError.sameBase :=
  ⟨((transfer_same_base_rejected alphaCommander tpSame2 true emptyDb).1 (by decide)).1,
   ((transfer_same_base_rejected alphaCommander tpSame2 true emptyDb).1 (by decide)).2.2
     (by decide)⟩

/-- Counterexample to **C4** as stated: for the Alpha commander (base 1),
the well-formed transfer payload `tpSame2` has both its from-base and
to-base equal to 2, i.e. different from the commander's base, yet the call
fails with the structural same-base ValidationError — not with Forbidden —
because the same-base check runs before the commander base-involvement
check. -/
theorem commander_other_base_counterexample :
    alphaCommander.role = Role.commander ∧
    tpSame2.from_base_id ≠ alphaCommander.base_id ∧
    tpSame2.to_base_id ≠ alphaCommander.base_id ∧
    transferRequired tpSame2 = true ∧
    (createTransfer alphaCommander tpSame2 true emptyDb).1 =
      CreateResult.rejected CreateError.sameBase ∧
    (createTransfer alphaCommander tpSame2 true emptyDb).1 ≠
      CreateResult.rejected CreateError.forbiddenBase ∧
    (createTransfer alphaCommander tpSame2 true emptyDb).1 ≠
      CreateResult.rejected CreateError.forbiddenRole := by
  decide

/-- **C4 (amended).** For every commander and well-formed payload: creating
a Purchase or Assignment whose base is not the commander's own fails with
Forbidden and persists nothing; creating a Transfer whose from-base and
to-base are distinct and both different from the commander's base fails
with Forbidden (when they coincide, the same-base ValidationError wins
instead); and the same create-Purchase call by an admin succeeds for any
base. -/
theorem commander_other_base_forbidden (c a : User)
    (hc : c.role = Role.commander) (ha : a.role = Role.admin)
    (pp : PurchasePayload) (ap : AssignmentPayload) (tp : TransferPayload)
    (auditOk : Bool) (db : Db) :
    (purchaseRequired pp = true → pp.base_id ≠ c.base_id →
      createPurchase c pp auditOk db =
        (CreateResult.rejected CreateError.forbiddenBase, db)) ∧
    (assignmentRequired ap = true → ap.base_id ≠ c.base_id →
      createAssignment c ap auditOk db =
        (CreateResult.rejected CreateError.forbiddenBase, db)) ∧
    (transferRequired tp = true → tp.from_base_id ≠ tp.to_base_id →
      tp.from_base_id ≠ c.base_id → tp.to_base_id ≠ c.base_id →
      createTransfer c tp auditOk db =
        (CreateResult.rejected CreateError.forbiddenBase, db)) ∧
    (purchaseRequired pp = true →
      ∃ r, (createPurchase a pp auditOk db).1 = CreateResult.created r) := by
  refine ⟨?_, ?_, ?_, ?_⟩
  · intro hreq hbase
    simp [createPurchase, checkRole, hc, hreq, hbase]
  · intro hreq hbase
    simp [createAssignment, checkRole, hc, hreq, hbase]
  · intro hreq hne hf ht
    simp [createTransfer, transferRoleAllowed, hreq, hne, hf, ht, hc]
  · intro hreq
    simp [createPurchase, checkRole, ha, hreq]

/-- Witness for **C4 (amended)**: the Alpha commander's base-2 purchase,
assignment and base-2-to-base-3 transfer are all rejected with Forbidden
and persist nothing, while the admin's identical base-2 purchase succeeds. -/
theorem commander_other_base_forbidden_witness :
    createPurchase alphaCommander ppBase2 true emptyDb =
      (CreateResult.rejected CreateError.forbiddenBase, emptyDb) ∧
    createAssignment alphaCommander apBase2 true emptyDb =
      (CreateResult.rejected CreateError.forbiddenBase, emptyDb) ∧
    createTransfer alphaCommander tpFrom2To3 true emptyDb =
      (CreateResult.rejected CreateError.forbiddenBase, emptyDb) ∧
    ∃ r, (createPurchase adminUser ppBase2 true emptyDb).1 = CreateResult.created r :=
  have h := commander_other_base_forbidden alphaCommander adminUser rfl rfl
    ppBase2 apBase2 tpFrom2To3 true emptyDb
  ⟨h.1 (by decide) (by decide), h.2.1 (by decide) (by decide),
   h.2.2.1 (by decide) (by decide) (by decide) (by decide), h.2.2.2 (by decide)⟩

/-- Counterexample to **C5** as stated: a logistics user submitting a
purchase payload with every required field missing is rejected with
Forbidden (the `checkRole` middleware), not with the required-fields
ValidationError — authorization runs before field validation. -/
theorem validation_order_counterexample :
    logiUser.role = Role.logistics ∧
    purchaseRequired ppEmpty = false ∧
    (createPurchase logiUser ppEmpty true emptyDb).1 =
      CreateResult.rejected CreateError.forbiddenRole ∧
    (createPurchase logiUser ppEmpty true emptyDb).1 ≠
      CreateResult.rejected CreateError.missingFields := by
  decide

/-- **C5 (amended).** Validation is fail-fast, but the role-authorization
(`checkRole`) middleware runs before the required-field check: a user whose
role is not allowed for the operation gets Forbidden regardless of the
payload, and only for allowed roles does a missing required field yield the
ValidationError (before any structural or base-ownership check).  For
create-Transfer every role is allowed, so there a missing field always
yields the ValidationError. -/
theorem role_check_before_validation (u : User) (pp : PurchasePayload)
    (tp : TransferPayload) (ap : AssignmentPayload) (auditOk : Bool) (db : Db) :
    (checkRole [Role.admin, Role.commander] u = false →
      createPurchase u pp auditOk db =
        (CreateResult.rejected CreateError.forbiddenRole, db) ∧
      createAssignment u ap auditOk db =
        (CreateResult.rejected CreateError.forbiddenRole, db)) ∧
    (checkRole [Role.admin, Role.commander] u = true →
      purchaseRequired pp = false →
      createPurchase u pp auditOk db =
        (CreateResult.rejected CreateError.missingFields, db)) ∧
    (checkRole [Role.admin, Role.commander] u = true →
      assignmentRequired ap = false →
      createAssignment u ap auditOk db =
        (CreateResult.rejected CreateError.missingFields, db)) ∧
    (transferRequired tp = false →
      createTransfer u tp auditOk db =
        (CreateResult.rejected CreateError.missingFields, db)) := by
  refine ⟨?_, ?_, ?_, ?_⟩
  · intro h
    constructor <;> simp [createPurchase, createAssignment, h]
  · intro h hreq
    simp [createPurchase, h, hreq]
  · intro h hreq
    simp [createAssignment, h, hreq]
  · intro hreq
    simp [createTransfer, transferRoleAllowed, hreq]

/-- Witness for **C5 (amended)**: the logistics user's empty purchase
payload yields Forbidden, while the admin's identical empty payload yields
the required-fields ValidationError. -/
theorem role_check_before_validation_witness :
    checkRole [Role.admin, Role.commander] logiUser = false ∧
    createPurchase logiUser ppEmpty true emptyDb =
      (CreateResult.rejected CreateError.forbiddenRole, emptyDb) ∧
    checkRole [Role.admin, Role.commander] adminUser = true ∧
    createPurchase adminUser ppEmpty true emptyDb =
      (CreateResult.rejected CreateError.missingFields, emptyDb) :=
  ⟨by decide,
   ((role_check_before_validation logiUser ppEmpty tpFrom1To2 apBase2 true
      emptyDb).1 (by decide)).1,
   by decide,
   (role_check_before_validation adminUser ppEmpty tpFrom1To2 apBase2 true
      emptyDb).2.1 (by decide) (by decide)⟩

/-- **C6.** For every logistics user, create-Purchase always fails with
the role Forbidden and persists nothing, independent of the payload; and a
logistics user is never role-denied when creating a Transfer. -/
theorem logistics_purchase_forbidden (u : User) (h : u.role = Role.logistics)
    (pp : PurchasePayload) (tp : TransferPayload) (auditOk : Bool) (db : Db) :
    createPurchase u pp auditOk db =
      (CreateResult.rejected CreateError.forbiddenRole, db) ∧
    (createTransfer u tp auditOk db).1 ≠
      CreateResult.rejected CreateError.forbiddenRole := by
  constructor
  · simp [createPurchase, checkRole, h]
  · by_cases hreq : transferRequired tp
    · by_cases hsame : tp.from_base_id = tp.to_base_id
      · simp [createTransfer, transferRoleAllowed, hreq, hsame]
      · simp [createTransfer, transferRoleAllowed, hreq, hsame, h]
    · simp [createTransfer, transferRoleAllowed, hreq]

/-- Witness for **C6**: the logistics user's well-formed base-2 purchase is
role-denied, while their base-1-to-base-2 transfer is not. -/
theorem logistics_purchase_forbidden_witness :
    createPurchase logiUser ppBase2 true emptyDb =
      (CreateResult.rejected CreateError.forbiddenRole, emptyDb) ∧
    (createTransfer logiUser tpFrom1To2 true emptyDb).1 ≠
      CreateResult.rejected CreateError.forbiddenRole :=
  logistics_purchase_forbidden logiUser rfl ppBase2 tpFrom1To2 true emptyDb

/-- Counterexample to **C7** as stated: over a store holding one transfer
of quantity 10 from base 1 to base 2, a logistics user's dashboard request
filtered to base 3 differs from the unfiltered request (transferIn 0
versus 10), because the transfers-in/out queries apply the caller-supplied
`base_id` for every non-commander role. -/
theorem logistics_filter_counterexample :
    logiUser.role = Role.logistics ∧
    dashboardMetrics logiUser ⟨some 3, none, none⟩ oneTransferDb ≠
      dashboardMetrics logiUser ⟨none, none, none⟩ oneTransferDb := by
  decide

/-- **C7 (amended).** For every logistics user, the assets, purchases,
active-assignments and expenditures aggregates are computed with no base
restriction (their values are the unrestricted table totals, whatever
`base_id` filter is supplied), but the transfers-in and transfers-out
aggregates apply the caller-supplied `base_id` whenever present — so two
requests differing only in `base_id` can disagree on transferIn,
transferOut, netMovement and closingBalance. -/
theorem logistics_unscoped_except_transfers (u : User)
    (h : u.role = Role.logistics) (q : MetricsQuery) (db : Db) :
    (dashboardMetrics u q db).openingBalance = (db.assets.map Asset.quantity).sum ∧
    (dashboardMetrics u q db).purchases = (db.purchases.map Purchase.quantity).sum ∧
    (dashboardMetrics u q db).assigned =
      (db.assignments.filter (fun a => a.status = AssignmentStatus.active)).length ∧
    (dashboardMetrics u q db).expended =
      (db.expenditures.map Expenditure.quantity).sum ∧
    (∀ b, q.base_id = some b →
      (dashboardMetrics u q db).transferIn =
        sumQty db.transfers (fun t => t.to_base_id = b) Transfer.quantity ∧
      (dashboardMetrics u q db).transferOut =
        sumQty db.transfers (fun t => t.from_base_id = b) Transfer.quantity) := by
  refine ⟨?_, ?_, ?_, ?_, fun b hb => ⟨?_, ?_⟩⟩
  case refine_5 =>
    simp [dashboardMetrics, mainBaseFilter, transferBaseFilter, h, hb,
      sumQty, countRows, matchesBase]
  case refine_6 =>
    simp [dashboardMetrics, mainBaseFilter, transferBaseFilter, h, hb,
      sumQty, countRows, matchesBase]
  all_goals
    simp [dashboardMetrics, mainBaseFilter, transferBaseFilter, h,
      sumQty, countRows, matchesBase]

/-- Witness for **C7 (amended)**: for the logistics user over the
one-transfer store with filter base 2, purchases is the unrestricted total
and transferIn is the base-2-targeted total. -/
theorem logistics_unscoped_except_transfers_witness :
    logiUser.role = Role.logistics ∧
    (dashboardMetrics logiUser ⟨some 2, none, none⟩ oneTransferDb).purchases =
      (oneTransferDb.purchases.map Purchase.quantity).sum ∧
    (dashboardMetrics logiUser ⟨some 2, none, none⟩ oneTransferDb).transferIn =
      sumQty oneTransferDb.transfers (fun t => t.to_base_id = 2) Transfer.quantity :=
  have h := logistics_unscoped_except_transfers logiUser rfl
    ⟨some 2, none, none⟩ oneTransferDb
  ⟨rfl, h.2.1, (h.2.2.2.2 2 rfl).1⟩

/-- **C8.** For every route except `/api/health`, a request whose token is
missing or invalid is answered with the authentication failure and nothing
else happens: the response is exactly the auth error and the store is
returned untouched (no handler, validation or store access runs). -/
theorem unauthenticated_rejected (auth : AuthInput) (e : Endpoint)
    (auditOk : Bool) (db : Db) (er : AuthError)
    (h1 : authenticateToken auth = Except.error er)
    (h2 : e ≠ Endpoint.health) :
    handleRequest auth e auditOk db = (Response.authFailed er, db) := by
  cases e <;> simp_all [handleRequest]

/-- Witness for **C8**: an invalid-token create-Purchase request is
answered with the token-invalid auth failure and the store is unchanged. -/
theorem unauthenticated_rejected_witness :
    authenticateToken AuthInput.badToken = Except.error AuthError.tokenInvalid ∧
    Endpoint.purchasesCreate ppEmpty ≠ Endpoint.health ∧
    handleRequest AuthInput.badToken (Endpoint.purchasesCreate ppEmpty) true emptyDb =
      (Response.authFailed AuthError.tokenInvalid, emptyDb) :=
  ⟨rfl, by decide,
   unauthenticated_rejected AuthInput.badToken (Endpoint.purchasesCreate ppEmpty)
     true emptyDb AuthError.tokenInvalid rfl (by decide)⟩

/-- **C9.** Every successful create (Purchase/Transfer/Assignment) emits
exactly one new audit-log row with matching entity type and the created
record's id, appended synchronously before returning; if the audit insert
fails, no audit row is written, the failure goes to the operational log,
and the business result is unchanged — the same as with a healthy audit
log (the failure never propagates). -/
theorem audit_exactly_once (u : User) (pp : PurchasePayload)
    (tp : TransferPayload) (ap : AssignmentPayload) (db : Db) :
    (∀ ok r, (createPurchase u pp ok db).1 = CreateResult.created r →
      (createPurchase u pp ok db).2.audit_logs =
        db.audit_logs ++ (if ok then [⟨u.id, "CREATE", "PURCHASE", r.id⟩] else []) ∧
      (createPurchase u pp ok db).2.opLog =
        db.opLog ++ (if ok then [] else ["Failed to create audit log"])) ∧
    ((createPurchase u pp true db).1 = (createPurchase u pp false db).1) ∧
    (∀ ok r, (createTransfer u tp ok db).1 = CreateResult.created r →
      (createTransfer u tp ok db).2.audit_logs =
        db.audit_logs ++ (if ok then [⟨u.id, "CREATE", "TRANSFER", r.id⟩] else []) ∧
      (createTransfer u tp ok db).2.opLog =
        db.opLog ++ (if ok then [] else ["Failed to create audit log"])) ∧
    ((createTransfer u tp true db).1 = (createTransfer u tp false db).1) ∧
    (∀ ok r, (createAssignment u ap ok db).1 = CreateResult.created r →
      (createAssignment u ap ok db).2.audit_logs =
        db.audit_logs ++ (if ok then [⟨u.id, "CREATE", "ASSIGNMENT", r.id⟩] else []) ∧
      (createAssignment u ap ok db).2.opLog =
        db.opLog ++ (if ok then [] else ["Failed to create audit log"])) ∧
    ((createAssignment u ap true db).1 = (createAssignment u ap false db).1) := by
  refine ⟨?_, ?_, ?_, ?_, ?_, ?_⟩
  · intro ok r hcr
    by_cases h1 : checkRole [Role.admin, Role.commander] u = true
    · by_cases h2 : purchaseRequired pp = true
      · by_cases h3 : u.role = Role.commander ∧ pp.base_id ≠ u.base_id
        · simp [createPurchase, h1, h2, h3] at hcr
        · simp only [createPurchase, h1, h2, h3, not_true_eq_false,
            not_false_eq_true, if_false, if_true, ite_false, ite_true] at hcr ⊢
          cases hcr
          cases ok <;> simp [logAudit]
      · simp [createPurchase, h1, h2] at hcr
    · simp [createPurchase, h1] at hcr
  · by_cases h1 : checkRole [Role.admin, Role.commander] u = true
    · by_cases h2 : purchaseRequired pp = true
      · by_cases h3 : u.role = Role.commander ∧ pp.base_id ≠ u.base_id
        · simp [createPurchase, h1, h2, h3]
        · simp [createPurchase, h1, h2, h3]
      · simp [createPurchase, h1, h2]
    · simp [createPurchase, h1]
  · intro ok r hcr
    by_cases h2 : transferRequired tp = true
    · by_cases h3 : tp.from_base_id = tp.to_base_id
      · simp [createTransfer, transferRoleAllowed, h2, h3] at hcr
      · by_cases h4 : u.role = Role.commander ∧
            tp.from_base_id ≠ u.base_id ∧ tp.to_base_id ≠ u.base_id
        · simp [createTransfer, transferRoleAllowed, h2, h3, h4] at hcr
        · simp only [createTransfer, transferRoleAllowed, h2, h3, h4,
            not_true_eq_false, not_false_eq_true, if_false, if_true,
            ite_false, ite_true] at hcr ⊢
          cases hcr
          cases ok <;> simp [logAudit]
    · simp [createTransfer, transferRoleAllowed, h2] at hcr
  · by_cases h2 : transferRequired tp = true
    · by_cases h3 : tp.from_base_id = tp.to_base_id
      · simp [createTransfer, transferRoleAllowed, h2, h3]
      · by_cases h4 : u.role = Role.commander ∧
            tp.from_base_id ≠ u.base_id ∧ tp.to_base_id ≠ u.base_id
        · simp [createTransfer, transferRoleAllowed, h2, h3, h4]
        · simp [createTransfer, transferRoleAllowed, h2, h3, h4]
    · simp [createTransfer, transferRoleAllowed, h2]
  · intro ok r hcr
    by_cases h1 : checkRole [Role.admin, Role.commander] u = true
    · by_cases h2 : assignmentRequired ap = true
      · by_cases h3 : u.role = Role.commander ∧ ap.base_id ≠ u.base_id
        · simp [createAssignment, h1, h2, h3] at hcr
        · simp only [createAssignment, h1, h2, h3, not_true_eq_false,
            not_false_eq_true, if_false, if_true, ite_false, ite_true] at hcr ⊢
          cases hcr
          cases ok <;> simp [logAudit]
      · simp [createAssignment, h1, h2] at hcr
    · simp [createAssignment, h1] at hcr
  · by_cases h1 : checkRole [Role.admin, Role.commander] u = true
    · by_cases h2 : assignmentRequired ap = true
      · by_cases h3 : u.role = Role.commander ∧ ap.base_id ≠ u.base_id
        · simp [createAssignment, h1, h2, h3]
        · simp [createAssignment, h1, h2, h3]
      · simp [createAssignment, h1, h2]
    · simp [createAssignment, h1]

/-- Witness for **C9**: the admin's successful base-2 purchase with a
healthy audit log appends exactly the matching audit row; with a failing
audit log it appends nothing, writes the operational-log line, and returns
the same business result. -/
theorem audit_exactly_once_witness :
    (createPurchase adminUser ppBase2 true emptyDb).1 =
      CreateResult.created
        { id := 1, base_id := 2, equipment_type_id := 1, quantity := 5,
          cost := some 1000, purchase_date := "2025-07-01",
          supplier := some "ACME", notes := none, created_by := 1 } ∧
    (createPurchase adminUser ppBase2 true emptyDb).2.audit_logs =
      [⟨1, "CREATE", "PURCHASE", 1⟩] ∧
    (createPurchase adminUser ppBase2 false emptyDb).2.audit_logs = [] ∧
    (createPurchase adminUser ppBase2 false emptyDb).2.opLog =
      ["Failed to create audit log"] ∧
    (createPurchase adminUser ppBase2 true emptyDb).1 =
      (createPurchase adminUser ppBase2 false emptyDb).1 :=
  have h := audit_exactly_once adminUser ppBase2 tpFrom1To2 apBase2 emptyDb
  have hcr : (createPurchase adminUser ppBase2 true emptyDb).1 =
      CreateResult.created
        { id := 1, base_id := 2, equipment_type_id := 1, quantity := 5,
          cost := some 1000, purchase_date := "2025-07-01",
          supplier := some "ACME", notes := none, created_by := 1 } := by decide
  have hcr' : (createPurchase adminUser ppBase2 false emptyDb).1 =
      CreateResult.created
        { id := 1, base_id := 2, equipment_type_id := 1, quantity := 5,
          cost := some 1000, purchase_date := "2025-07-01",
          supplier := some "ACME", notes := none, created_by := 1 } := by decide
  ⟨hcr, by simpa using (h.1 true _ hcr).1, by simpa using (h.1 false _ hcr').1,
   by simpa using (h.1 false _ hcr').2, h.2.1⟩

end MilDb
